import Mathlib

/-!
Verification of the logistics dashboard front-ends (src/app.py and
src/dhl_logistics_app.py) against their natural-language specification.

The two scripts are thin Streamlit front-ends over a REST API.  The logic
embedded here, translated directly from the Python source, is:
  * the status classifier of the Parcel Tracking tab (app.py lines 113-119);
  * the HTTP response handling of the Customer Lookup tab (app.py lines 84-95)
    and of the Update Status tab (app.py lines 151-165);
  * the helpers fetch_api_data and update_shipment_status of the DHL dashboard
    (dhl_logistics_app.py lines 58-79), including the semantics of the
    requests library raise_for_status call they rely on;
  * the pandas search filters of the Shipments and Customers pages
    (dhl_logistics_app.py lines 204-210 and 256-264);
  * the truthiness guards that decide which page sections render
    (dhl_logistics_app.py Dashboard, Customers and Parcels pages).

Python strings are modelled as Lean String values; the Python lower() method
is modelled on the underlying character list with Char.toLower, which agrees
with Python on the ASCII range the application manipulates.
-/

/-- A JSON value, as produced by response.json() in the Python source. -/
inductive Json where
  | null
  | bool (b : Bool)
  | num (n : Int)
  | str (s : String)
  | arr (elems : List Json)
  | obj (fields : List (String × Json))

/-- Python lower(): lowercase every character.  Lean Char.toLower lowers the
basic latin letters, which matches Python on the ASCII strings the app uses. -/
def pyLower (s : String) : List Char :=
  s.data.map Char.toLower

/-- The Python substring test pat in hay, on character lists. -/
def py_in (pat hay : List Char) : Bool :=
  decide (pat <:+: hay)

/-- The three presentation categories of the status classifier.  In the source
they are the CSS classes status-delivered, status-transit, status-processing. -/
inductive StatusCategory where
  | Delivered
  | InTransit
  | Processing
deriving DecidableEq, Repr

/-- The status classifier of the Parcel Tracking tab, app.py lines 113-119:
default status-processing, overridden to status-delivered when
lower(status) == "delivered", else to status-transit when "transit" occurs in
lower(status). -/
def status_class (s : String) : StatusCategory :=
  if pyLower s = "delivered".data then StatusCategory.Delivered
  else if py_in "transit".data (pyLower s) then StatusCategory.InTransit
  else StatusCategory.Processing

/-- C1: the classifier yields Delivered exactly on lowercasings equal to
"delivered", InTransit when the lowercasing merely contains "transit", and
Processing otherwise; the concrete examples of the spec evaluate accordingly. -/
theorem C1_status_classifier (s : String) :
    (pyLower s = "delivered".data → status_class s = StatusCategory.Delivered) ∧
    (pyLower s ≠ "delivered".data → "transit".data <:+: pyLower s →
      status_class s = StatusCategory.InTransit) ∧
    (pyLower s ≠ "delivered".data → ¬ ("transit".data <:+: pyLower s) →
      status_class s = StatusCategory.Processing) ∧
    status_class "Delivered" = StatusCategory.Delivered ∧
    status_class "delivered" = StatusCategory.Delivered ∧
    status_class "DELIVERED" = StatusCategory.Delivered ∧
    status_class "In Transit" = StatusCategory.InTransit ∧
    status_class "out for transit hub" = StatusCategory.InTransit ∧
    status_class "Processing" = StatusCategory.Processing ∧
    status_class "" = StatusCategory.Processing ∧
    status_class "unknown-xyz" = StatusCategory.Processing := by
  refine ⟨fun h => ?_, fun h1 h2 => ?_, fun h1 h2 => ?_,
    by decide, by decide, by decide, by decide, by decide, by decide, by decide, by decide⟩
  · simp [status_class, h]
  · simp [status_class, py_in, h1, h2]
  · simp [status_class, py_in, h1, h2]

/-- C1 witness: the theorem applied to the concrete input "DELIVERED". -/
theorem C1_status_classifier_witness :
    status_class "DELIVERED" = StatusCategory.Delivered :=
  (C1_status_classifier "DELIVERED").1 (by decide)

/-- C2 counterexample: a status string containing both the word "delivered"
and the word "transit" is classified InTransit, not Delivered, because the
Delivered branch requires the whole lowercased string to equal "delivered". -/
theorem C2_both_words_counterexample :
    "delivered".data <:+: pyLower "Delivered to transit hub" ∧
    "transit".data <:+: pyLower "Delivered to transit hub" ∧
    status_class "Delivered to transit hub" = StatusCategory.InTransit := by
  refine ⟨by decide, by decide, by decide⟩

/-- C2 amended: the two classifier conditions are mutually exclusive, so no
real tie exists: a lowercasing equal to "delivered" cannot contain "transit",
the Delivered branch fires exactly on that equality, and every other string
containing "transit" is classified InTransit. -/
theorem C2_no_textual_tie (s : String) :
    ¬ (pyLower s = "delivered".data ∧ "transit".data <:+: pyLower s) ∧
    (pyLower s = "delivered".data → status_class s = StatusCategory.Delivered) ∧
    (pyLower s ≠ "delivered".data → "transit".data <:+: pyLower s →
      status_class s = StatusCategory.InTransit) := by
  refine ⟨?_, fun h => ?_, fun h1 h2 => ?_⟩
  · rintro ⟨h1, h2⟩
    rw [h1] at h2
    exact absurd h2 (by decide)
  · simp [status_class, h]
  · simp [status_class, py_in, h1, h2]

/-- C2 witness: the amended theorem applied to the concrete input
"in transit". -/
theorem C2_no_textual_tie_witness :
    status_class "in transit" = StatusCategory.InTransit :=
  (C2_no_textual_tie "in transit").2.2 (by decide) (by decide)

/-- C3: the classifier is a total function into the three pairwise distinct
categories: every string, with no restriction, is mapped to exactly one of
Delivered, InTransit, Processing. -/
theorem C3_classifier_total (s : String) :
    (status_class s = StatusCategory.Delivered ∨
      status_class s = StatusCategory.InTransit ∨
      status_class s = StatusCategory.Processing) ∧
    StatusCategory.Delivered ≠ StatusCategory.InTransit ∧
    StatusCategory.Delivered ≠ StatusCategory.Processing ∧
    StatusCategory.InTransit ≠ StatusCategory.Processing := by
  refine ⟨?_, by decide, by decide, by decide⟩
  unfold status_class
  split
  · exact Or.inl rfl
  · split
    · exact Or.inr (Or.inl rfl)
    · exact Or.inr (Or.inr rfl)

/-- An HTTP response as seen by the Python code: a numeric status code and a
parsed JSON body. -/
structure HttpResponse where
  status_code : Nat
  body : Json

/-- An HTTP interaction outcome: either the transport layer raised an
exception carrying a message (connection refused, timeout, DNS failure), or a
response came back. -/
def HttpResult : Type := Except String HttpResponse

/-- The Python dict get method with a default, as in
response.json().get("detail", "Unknown error"): on a JSON object, the value of
the key when present, else the default. -/
def Json.get (j : Json) (key : String) (default : Json) : Json :=
  match j with
  | Json.obj fields =>
    match fields.find? (fun p => p.1 == key) with
    | some p => p.2
    | none => default
  | _ => default

/-- Python str() interpolation of a JSON value into an f-string, modelled for
the scalar cases the application actually interpolates; the representations of
containers are abbreviated. -/
def Json.pyStr : Json → String
  | Json.null => "None"
  | Json.bool true => "True"
  | Json.bool false => "False"
  | Json.num n => toString n
  | Json.str s => s
  | Json.arr _ => "[...]"
  | Json.obj _ => "\x7b...\x7d"

/-- The error taxonomy of the spec, read off the branches of the Customer
Lookup handler: Success renders the record, NotFound shows "Customer not
found", ServerError shows the detail field, ConnectionFailed shows the
exception message. -/
inductive ApiOutcome where
  | Success (body : Json)
  | NotFound
  | ServerError (code : Nat) (detail : Json)
  | ConnectionFailed (msg : String)

/-- The Customer Lookup response handling, app.py lines 84-95: 200 renders the
customer, 404 shows "Customer not found", any other status shows the detail
field of the body (default "Unknown error"), and a requests exception shows a
connection error with the exception message. -/
def customer_lookup (r : HttpResult) : ApiOutcome :=
  match r with
  | Except.error e => ApiOutcome.ConnectionFailed e
  | Except.ok resp =>
    if resp.status_code = 200 then ApiOutcome.Success resp.body
    else if resp.status_code = 404 then ApiOutcome.NotFound
    else ApiOutcome.ServerError resp.status_code
      (resp.body.get "detail" (Json.str "Unknown error"))

/-- C4: the Customer Lookup maps a transport failure to ConnectionFailed with
the failure message, an HTTP 404 to NotFound, and any non-2xx status other
than 404 to ServerError carrying the status code and the detail field of the
JSON body when present, the generic "Unknown error" otherwise. -/
theorem C4_error_taxonomy (e : String) (resp : HttpResponse)
    (fields : List (String × Json)) (d : Json) :
    customer_lookup (Except.error e) = ApiOutcome.ConnectionFailed e ∧
    (resp.status_code = 404 →
      customer_lookup (Except.ok resp) = ApiOutcome.NotFound) ∧
    (¬ (200 ≤ resp.status_code ∧ resp.status_code < 300) →
      resp.status_code ≠ 404 →
      customer_lookup (Except.ok resp) =
        ApiOutcome.ServerError resp.status_code
          (resp.body.get "detail" (Json.str "Unknown error"))) ∧
    (fields.find? (fun p => p.1 == "detail") = some ("detail", d) →
      Json.get (Json.obj fields) "detail" (Json.str "Unknown error") = d) ∧
    (fields.find? (fun p => p.1 == "detail") = none →
      Json.get (Json.obj fields) "detail" (Json.str "Unknown error") =
        Json.str "Unknown error") := by
  refine ⟨rfl, fun h404 => ?_, fun hno2xx h404 => ?_, fun hfind => ?_, fun hfind => ?_⟩
  · have h200 : resp.status_code ≠ 200 := by omega
    simp [customer_lookup, h200, h404]
  · have h200 : resp.status_code ≠ 200 := by omega
    simp [customer_lookup, h200, h404]
  · simp [Json.get, hfind]
  · simp [Json.get, hfind]

/-- C4 witness: the theorem applied to a 400 response whose body carries a
detail field, yielding ServerError 400 with that detail. -/
theorem C4_error_taxonomy_witness :
    customer_lookup (Except.ok ⟨400, Json.obj [("detail", Json.str "bad input")]⟩) =
      ApiOutcome.ServerError 400 (Json.str "bad input") := by
  have h := (C4_error_taxonomy "x"
      ⟨400, Json.obj [("detail", Json.str "bad input")]⟩ [] Json.null).2.2.1
    (by decide) (by decide)
  exact h

/-- The requests library raise_for_status call: raises an HTTPError exception
exactly when the status code is in the 400-599 range.  Modelled from the
requests library semantics relied on by dhl_logistics_app.py; the exception
message is abbreviated to the status code. -/
def raise_for_status (resp : HttpResponse) : Except String HttpResponse :=
  if 400 ≤ resp.status_code ∧ resp.status_code < 600 then
    Except.error (toString resp.status_code ++ " Error")
  else Except.ok resp

/-- The helper fetch_api_data of dhl_logistics_app.py lines 58-66: perform the
GET, call raise_for_status, return the parsed JSON body; any requests
exception (transport failure or raised HTTPError) is caught, an error message
is shown, and None is returned. -/
def fetch_api_data (r : HttpResult) : Option Json :=
  match r with
  | Except.error _ => none
  | Except.ok resp =>
    match raise_for_status resp with
    | Except.error _ => none
    | Except.ok okResp => some okResp.body

/-- The outcome of the Update Status submit handler of app.py: the success
message or the displayed error message. -/
inductive UpdateOutcome where
  | Success
  | Failure (msg : String)
deriving DecidableEq, Repr

/-- The Update Status response handling, app.py lines 151-165: exactly status
200 shows "Status updated successfully"; any other status shows the detail
field of the body; a requests exception shows a connection error. -/
def update_status_outcome (r : HttpResult) : UpdateOutcome :=
  match r with
  | Except.error e => UpdateOutcome.Failure ("Connection error: " ++ e)
  | Except.ok resp =>
    if resp.status_code = 200 then UpdateOutcome.Success
    else UpdateOutcome.Failure
      ("Error: " ++ (resp.body.get "detail" (Json.str "Unknown error")).pyStr)

/-- C5 counterexample: a 201 response, although in the 2xx range, is handled
by the error branch of the Update Status handler, not the success branch. -/
theorem C5_two_xx_counterexample :
    200 ≤ 201 ∧ 201 < 300 ∧
    update_status_outcome (Except.ok ⟨201, Json.obj []⟩) =
      UpdateOutcome.Failure "Error: Unknown error" := by
  refine ⟨by omega, by omega, by decide⟩

/-- C5 amended: fetch_api_data treats every response with status below 400,
hence every 2xx response, as a success and returns the parsed JSON body; the
Update Status handler of app.py treats exactly status 200 as success, so a
2xx status other than 200 takes its error branch. -/
theorem C5_success_branches (resp : HttpResponse) :
    (resp.status_code < 400 →
      fetch_api_data (Except.ok resp) = some resp.body) ∧
    (resp.status_code = 200 →
      update_status_outcome (Except.ok resp) = UpdateOutcome.Success) ∧
    (resp.status_code ≠ 200 →
      update_status_outcome (Except.ok resp) ≠ UpdateOutcome.Success) := by
  refine ⟨fun hlt => ?_, fun h200 => ?_, fun hne => ?_⟩
  · have h : ¬ (400 ≤ resp.status_code ∧ resp.status_code < 600) := by omega
    simp [fetch_api_data, raise_for_status, h]
  · simp [update_status_outcome, h200]
  · simp [update_status_outcome, hne]

/-- C5 witness: the amended theorem applied to a 204 response, which
fetch_api_data returns as a parsed body. -/
theorem C5_success_branches_witness :
    fetch_api_data (Except.ok ⟨204, Json.arr []⟩) = some (Json.arr []) :=
  (C5_success_branches ⟨204, Json.arr []⟩).1 (by decide)

/-- A row of the shipments dataframe, with the columns the DHL dashboard
displays and searches. -/
structure ShipmentRec where
  ShipmentID : Nat
  ShipmentName : String
  ParcelName : String
  CustomerName : String
  Status : String
  CurrentLocation : String
deriving DecidableEq, Repr

/-- A row of the customers dataframe, with the columns the DHL dashboard
displays and searches.  The source column Type is rendered as the field
Type_ because Type is reserved in Lean. -/
structure CustomerRec where
  CustomerID : Nat
  Name : String
  Email : String
  Phone : String
  Address : String
  Type_ : String
deriving DecidableEq, Repr

/-- One pattern character of the modelled regex fragment matched against one
subject character: the dot metacharacter matches any character other than a
newline, any other modelled pattern character matches itself, as in Python
re. -/
def re_char_matches (p c : Char) : Bool :=
  if p = '.' then c != '\n' else p == c

/-- Python re matching of a whole pattern at the head of the subject, for the
modelled fragment. -/
def re_match_here (pat s : List Char) : Bool :=
  match pat, s with
  | [], _ => true
  | _ :: _, [] => false
  | p :: ps, c :: cs => re_char_matches p c && re_match_here ps cs

/-- Python re.search for the modelled fragment: the pattern matches at some
position of the subject. -/
def re_search (pat s : List Char) : Bool :=
  match s with
  | [] => re_match_here pat []
  | c :: cs => re_match_here pat (c :: cs) || re_search pat cs

/-- The pandas test field.str.contains(term, case=False): pandas reads the
term as a regular expression (regex=True is the default) and applies
re.search under IGNORECASE, modelled on ASCII by lowering both sides.  The
regex dialect is modelled for the fragment of literal characters and the dot
wildcard; terms using the other metacharacters (repetition, classes, groups,
alternation, and invalid patterns, which raise re.error) are outside the
model and outside every theorem about the filters. -/
def ci_contains (hay pat : String) : Bool :=
  re_search (pyLower pat) (pyLower hay)

/-- The characters Python re treats as metacharacters: a term avoiding all of
them is read by re as the literal string itself. -/
def regex_literal_char (c : Char) : Bool :=
  !(['.', '^', '$', '*', '+', '?', '\x7b', '\x7d',
      '[', ']', '\\', '|', '(', ')'].contains c)

/-- Whether a search term is free of regex metacharacters, so that pandas
searches it literally. -/
def regex_literal (t : String) : Bool :=
  t.data.all regex_literal_char

/-- On a metacharacter-free pattern, matching at the head of the subject is
the prefix test. -/
theorem re_match_here_literal (pat s : List Char)
    (h : pat.all regex_literal_char = true) :
    re_match_here pat s = decide (pat <+: s) := by
  induction pat generalizing s with
  | nil => simp [re_match_here]
  | cons p ps ih =>
    rw [List.all_cons, Bool.and_eq_true] at h
    cases s with
    | nil => simp [re_match_here]
    | cons c cs =>
      have hpd : p ≠ '.' := fun hq => absurd (hq ▸ h.1) (by decide)
      rw [Bool.eq_iff_iff]
      simp [re_match_here, re_char_matches, hpd, ih cs h.2, List.cons_prefix_cons]

/-- On a metacharacter-free pattern, re.search is the substring test. -/
theorem re_search_literal (pat s : List Char)
    (h : pat.all regex_literal_char = true) :
    re_search pat s = py_in pat s := by
  induction s with
  | nil =>
    simp only [re_search, py_in, re_match_here_literal pat [] h]
    rw [Bool.eq_iff_iff]
    simp
  | cons c cs ih =>
    simp only [re_search, py_in, re_match_here_literal pat (c :: cs) h, ih]
    rw [Bool.eq_iff_iff]
    simp [py_in, List.infix_cons_iff]

/-- Lowering a character preserves being metacharacter-free: the basic latin
uppercase letters lower to lowercase letters, every other character is
unchanged. -/
theorem regex_literal_char_toLower (c : Char) (h : regex_literal_char c = true) :
    regex_literal_char (Char.toLower c) = true := by
  have hc : Char.toLower c = if Char.toNat c ≥ 65 ∧ Char.toNat c ≤ 90
      then Char.ofNat (Char.toNat c + 32) else c := rfl
  rw [hc]
  split
  · rename_i hrange
    obtain ⟨h1, h2⟩ := hrange
    obtain ⟨n, hn⟩ : ∃ n, Char.toNat c = n := ⟨_, rfl⟩
    rw [hn] at h1 h2 ⊢
    have key : ∀ m, m < 91 → 65 ≤ m →
        regex_literal_char (Char.ofNat (m + 32)) = true := by decide
    exact key n (by omega) h1
  · exact h

/-- Lowering a term preserves being metacharacter-free. -/
theorem regex_literal_pyLower (t : String) (h : regex_literal t = true) :
    (pyLower t).all regex_literal_char = true := by
  unfold regex_literal at h
  rw [List.all_eq_true] at h
  unfold pyLower
  rw [List.all_map, List.all_eq_true]
  intro c hc
  show regex_literal_char (Char.toLower c) = true
  exact regex_literal_char_toLower c (h c hc)

/-- On a metacharacter-free term, the pandas containment test is exactly
case-insensitive literal substring containment. -/
theorem ci_contains_literal (hay pat : String) (h : regex_literal pat = true) :
    ci_contains hay pat = py_in (pyLower pat) (pyLower hay) :=
  re_search_literal (pyLower pat) (pyLower hay) (regex_literal_pyLower pat h)

/-- The row predicate of the View Shipments search, dhl_logistics_app.py
lines 204-208: the term occurs in ShipmentName or in CustomerName. -/
def shipment_matches (term : String) (r : ShipmentRec) : Bool :=
  ci_contains r.ShipmentName term || ci_contains r.CustomerName term

/-- The View Shipments search filter, dhl_logistics_app.py lines 204-210: an
empty term leaves the dataframe unfiltered (the Python truthiness guard on the
term), otherwise the rows matching the predicate are kept in order. -/
def shipments_search (term : String) (rows : List ShipmentRec) : List ShipmentRec :=
  if term = "" then rows else rows.filter (shipment_matches term)

/-- The row predicate of the Customers search, dhl_logistics_app.py lines
258-262: the term occurs in Name or in Email. -/
def customer_matches (term : String) (r : CustomerRec) : Bool :=
  ci_contains r.Name term || ci_contains r.Email term

/-- The Customers search filter, dhl_logistics_app.py lines 256-264. -/
def customers_search (term : String) (rows : List CustomerRec) : List CustomerRec :=
  if term = "" then rows else rows.filter (customer_matches term)

/-- C6 counterexample: pandas reads the search term as a regular expression,
so the term a.c, which is a case-insensitive substring of no field of the
one-row table, nonetheless selects the row whose ShipmentName is abc: the
filter returns one record where the claim promises exactly zero. -/
theorem C6_regex_counterexample :
    py_in (pyLower "a.c") (pyLower "abc") = false ∧
    ci_contains "abc" "a.c" = true ∧
    List.countP (fun r =>
        py_in (pyLower "a.c") (pyLower r.ShipmentName) ||
          py_in (pyLower "a.c") (pyLower r.CustomerName))
      [(⟨1, "abc", "Box", "Zed", "In Transit", "Bonn"⟩ : ShipmentRec)] = 0 ∧
    shipments_search "a.c" [⟨1, "abc", "Box", "Zed", "In Transit", "Bonn"⟩] =
      [⟨1, "abc", "Box", "Zed", "In Transit", "Bonn"⟩] := by
  refine ⟨by decide, by decide, by decide, by decide⟩

/-- C6 amended: an empty search term yields the unfiltered list; a nonempty
term free of regex metacharacters, the literal search the spec describes,
yields exactly the records whose designated fields contain it as a
case-insensitive substring, in their original order (a sublist of the input),
and the number of records returned equals the number of such records. -/
theorem C6_search_filter (term : String) (ss : List ShipmentRec)
    (cs : List CustomerRec) :
    (term = "" → shipments_search term ss = ss ∧ customers_search term cs = cs) ∧
    (term ≠ "" → regex_literal term = true →
      List.Sublist (shipments_search term ss) ss ∧
      (∀ r, r ∈ shipments_search term ss ↔ r ∈ ss ∧
        (py_in (pyLower term) (pyLower r.ShipmentName) ||
          py_in (pyLower term) (pyLower r.CustomerName)) = true) ∧
      (shipments_search term ss).length = List.countP (fun r =>
        py_in (pyLower term) (pyLower r.ShipmentName) ||
          py_in (pyLower term) (pyLower r.CustomerName)) ss ∧
      List.Sublist (customers_search term cs) cs ∧
      (∀ r, r ∈ customers_search term cs ↔ r ∈ cs ∧
        (py_in (pyLower term) (pyLower r.Name) ||
          py_in (pyLower term) (pyLower r.Email)) = true) ∧
      (customers_search term cs).length = List.countP (fun r =>
        py_in (pyLower term) (pyLower r.Name) ||
          py_in (pyLower term) (pyLower r.Email)) cs) := by
  constructor
  · intro h
    simp [shipments_search, customers_search, h]
  · intro h hR
    have hsm : shipment_matches term = fun r =>
        py_in (pyLower term) (pyLower r.ShipmentName) ||
          py_in (pyLower term) (pyLower r.CustomerName) := by
      funext r
      unfold shipment_matches
      rw [ci_contains_literal _ _ hR, ci_contains_literal _ _ hR]
    have hcm : customer_matches term = fun r =>
        py_in (pyLower term) (pyLower r.Name) ||
          py_in (pyLower term) (pyLower r.Email) := by
      funext r
      unfold customer_matches
      rw [ci_contains_literal _ _ hR, ci_contains_literal _ _ hR]
    simp only [shipments_search, customers_search, if_neg h, hsm, hcm]
    exact ⟨List.filter_sublist ss, fun r => List.mem_filter,
      (List.countP_eq_length_filter _ _).symm,
      List.filter_sublist cs, fun r => List.mem_filter,
      (List.countP_eq_length_filter _ _).symm⟩

/-- C6 witness: the amended theorem applied to the metacharacter-free term AN
and a concrete one-row shipments table, showing the matching row is
returned. -/
theorem C6_search_filter_witness :
    (⟨1, "Anvil set", "Box", "Bob Smith", "In Transit", "Bonn"⟩ : ShipmentRec) ∈
      shipments_search "AN"
        [⟨1, "Anvil set", "Box", "Bob Smith", "In Transit", "Bonn"⟩] := by
  have h := ((C6_search_filter "AN"
      [⟨1, "Anvil set", "Box", "Bob Smith", "In Transit", "Bonn"⟩] []).2
    (by decide) (by decide)).2.1
    ⟨1, "Anvil set", "Box", "Bob Smith", "In Transit", "Bonn"⟩
  exact h.mpr ⟨by decide, by decide⟩

/-- The helper update_shipment_status of dhl_logistics_app.py lines 68-79:
perform the PUT, call raise_for_status, return True; any requests exception
(transport failure or raised HTTPError) is caught, an error message built from
the exception is shown, and False is returned.  The result pairs the boolean
with the displayed error message, when any. -/
def update_shipment_status (r : HttpResult) : Bool × Option String :=
  match r with
  | Except.error e => (false, some ("Error updating shipment: " ++ e))
  | Except.ok resp =>
    match raise_for_status resp with
    | Except.error e => (false, some ("Error updating shipment: " ++ e))
    | Except.ok _ => (true, none)

/-- The controller states of the spec state machine for a form-driven
workflow. -/
inductive CtrlState where
  | Idle
  | Submitting
  | Success
  | Failed
deriving DecidableEq, Repr

/-- The observable outcome of one script run in which the user submits the
form: the state trace of the run, the confirmation shown on success, the error
message shown on failure, and whether a full rerun (data refresh) was
requested via st.rerun.  Each Streamlit run starts fresh, so every trace
begins at Idle; the synchronous API call is the Submitting state (the spinner
in app.py); the run ends in Success or Failed. -/
structure SubmitResult where
  trace : List CtrlState
  confirmation : Option String
  errorMsg : Option String
  refresh : Bool
deriving DecidableEq, Repr

/-- The Update Shipment button handler, dhl_logistics_app.py lines 242-245:
when update_shipment_status returns True, show the confirmation and call
st.rerun (which refetches every displayed list); otherwise the helper has
already shown its error message and nothing else happens. -/
def dhl_update_submit (r : HttpResult) : SubmitResult :=
  match update_shipment_status r with
  | (true, _) =>
    ⟨[CtrlState.Idle, CtrlState.Submitting, CtrlState.Success],
      some "Shipment updated successfully!", none, true⟩
  | (false, msg) =>
    ⟨[CtrlState.Idle, CtrlState.Submitting, CtrlState.Failed],
      none, msg, false⟩

/-- The Update Status submit handler, app.py lines 151-165: status 200 shows
the confirmation, any other response or exception shows an error; no refetch
is requested (that app fetches no resource list). -/
def app_update_submit (r : HttpResult) : SubmitResult :=
  match update_status_outcome r with
  | UpdateOutcome.Success =>
    ⟨[CtrlState.Idle, CtrlState.Submitting, CtrlState.Success],
      some "Status updated successfully", none, false⟩
  | UpdateOutcome.Failure m =>
    ⟨[CtrlState.Idle, CtrlState.Submitting, CtrlState.Failed],
      none, some m, false⟩

/-- C7 counterexample: in the app.py Update Status workflow a 204 response,
although 2xx, ends the run in Failed with an error message and no
confirmation; and even an accepted 200 update there requests no data
refresh. -/
theorem C7_two_xx_counterexample :
    200 ≤ 204 ∧ 204 < 300 ∧
    app_update_submit (Except.ok ⟨204, Json.obj []⟩) =
      ⟨[CtrlState.Idle, CtrlState.Submitting, CtrlState.Failed],
        none, some "Error: Unknown error", false⟩ ∧
    (app_update_submit (Except.ok ⟨200, Json.obj []⟩)).refresh = false := by
  refine ⟨by omega, by omega, by decide, by decide⟩

/-- C7 amended: in the DHL Update Shipment workflow every response with
status below 400, hence every 2xx response, drives the run
Idle, Submitting, Success, shows the confirmation and requests the full
refresh; in the app.py Update Status workflow exactly status 200 drives the
run to Success with a confirmation, and no refresh fetch is issued because
that app renders no resource list. -/
theorem C7_success_transition (resp : HttpResponse) :
    (resp.status_code < 400 →
      dhl_update_submit (Except.ok resp) =
        ⟨[CtrlState.Idle, CtrlState.Submitting, CtrlState.Success],
          some "Shipment updated successfully!", none, true⟩) ∧
    (resp.status_code = 200 →
      app_update_submit (Except.ok resp) =
        ⟨[CtrlState.Idle, CtrlState.Submitting, CtrlState.Success],
          some "Status updated successfully", none, false⟩) := by
  refine ⟨fun hlt => ?_, fun h200 => ?_⟩
  · have h : ¬ (400 ≤ resp.status_code ∧ resp.status_code < 600) := by omega
    simp [dhl_update_submit, update_shipment_status, raise_for_status, h]
  · simp [app_update_submit, update_status_outcome, h200]

/-- C7 witness: the amended theorem applied to a 200 response in the DHL
workflow. -/
theorem C7_success_transition_witness :
    dhl_update_submit (Except.ok ⟨200, Json.obj []⟩) =
      ⟨[CtrlState.Idle, CtrlState.Submitting, CtrlState.Success],
        some "Shipment updated successfully!", none, true⟩ :=
  (C7_success_transition ⟨200, Json.obj []⟩).1 (by decide)

/-- Every run of the app.py Update Status handler traces Idle, Submitting and
then one terminal state. -/
theorem app_update_trace_cases (r : HttpResult) :
    (app_update_submit r).trace =
      [CtrlState.Idle, CtrlState.Submitting, CtrlState.Success] ∨
    (app_update_submit r).trace =
      [CtrlState.Idle, CtrlState.Submitting, CtrlState.Failed] := by
  cases hu : update_status_outcome r
  · exact Or.inl (by simp [app_update_submit, hu])
  · exact Or.inr (by simp [app_update_submit, hu])

/-- Every run of the DHL Update Shipment handler traces Idle, Submitting and
then one terminal state. -/
theorem dhl_update_trace_cases (r : HttpResult) :
    (dhl_update_submit r).trace =
      [CtrlState.Idle, CtrlState.Submitting, CtrlState.Success] ∨
    (dhl_update_submit r).trace =
      [CtrlState.Idle, CtrlState.Submitting, CtrlState.Failed] := by
  cases hd : update_shipment_status r with
  | mk b msg =>
    cases b
    · exact Or.inr (by simp [dhl_update_submit, hd])
    · exact Or.inl (by simp [dhl_update_submit, hd])

/-- C8: a transport failure or an error response drives either submit handler
to a run ending in Failed, with the human-readable error message displayed and
no confirmation; every run starts again at Idle (nothing persists between
Streamlit runs) and contains exactly one Submitting step, so nothing is
retried automatically and resubmission is always possible, as a resubmitted
accepted update indeed reaches Success. -/
theorem C8_error_recovery (e : String) (resp : HttpResponse) (r : HttpResult) :
    app_update_submit (Except.error e) =
      ⟨[CtrlState.Idle, CtrlState.Submitting, CtrlState.Failed],
        none, some ("Connection error: " ++ e), false⟩ ∧
    (resp.status_code ≠ 200 →
      app_update_submit (Except.ok resp) =
        ⟨[CtrlState.Idle, CtrlState.Submitting, CtrlState.Failed],
          none,
          some ("Error: " ++
            (resp.body.get "detail" (Json.str "Unknown error")).pyStr),
          false⟩) ∧
    dhl_update_submit (Except.error e) =
      ⟨[CtrlState.Idle, CtrlState.Submitting, CtrlState.Failed],
        none, some ("Error updating shipment: " ++ e), false⟩ ∧
    (400 ≤ resp.status_code → resp.status_code < 600 →
      dhl_update_submit (Except.ok resp) =
        ⟨[CtrlState.Idle, CtrlState.Submitting, CtrlState.Failed],
          none,
          some ("Error updating shipment: " ++
            (toString resp.status_code ++ " Error")),
          false⟩) ∧
    ((app_update_submit r).trace.head? = some CtrlState.Idle ∧
      (app_update_submit r).trace.count CtrlState.Submitting = 1 ∧
      (dhl_update_submit r).trace.head? = some CtrlState.Idle ∧
      (dhl_update_submit r).trace.count CtrlState.Submitting = 1) ∧
    (app_update_submit (Except.ok ⟨200, Json.null⟩)).trace.getLast? =
      some CtrlState.Success := by
  refine ⟨rfl, fun hne => ?_, rfl, fun h4 h6 => ?_, ?_, by decide⟩
  · simp [app_update_submit, update_status_outcome, hne]
  · have h : 400 ≤ resp.status_code ∧ resp.status_code < 600 := ⟨h4, h6⟩
    simp [dhl_update_submit, update_shipment_status, raise_for_status, h]
  · obtain ha | ha := app_update_trace_cases r <;>
      obtain hd | hd := dhl_update_trace_cases r <;>
        rw [ha, hd] <;> exact ⟨rfl, by decide, rfl, by decide⟩

/-- C8 witness: the theorem applied to a 503 response with a detail field,
showing the run ends Failed with the detail surfaced. -/
theorem C8_error_recovery_witness :
    app_update_submit
        (Except.ok ⟨503, Json.obj [("detail", Json.str "service down")]⟩) =
      ⟨[CtrlState.Idle, CtrlState.Submitting, CtrlState.Failed],
        none, some "Error: service down", false⟩ := by
  have h := (C8_error_recovery "x"
      ⟨503, Json.obj [("detail", Json.str "service down")]⟩
      (Except.error "x")).2.1 (by decide)
  exact h

/-- Python truthiness of a fetch_api_data result, as used by the guards
if summary:, if parcels:, if customers: in dhl_logistics_app.py.  None is
falsy; a parsed JSON value is falsy when it is null, False, zero, an empty
string, an empty array or an empty object. -/
def truthy : Option Json → Bool
  | none => false
  | some Json.null => false
  | some (Json.bool b) => b
  | some (Json.num n) => n != 0
  | some (Json.str s) => s != ""
  | some (Json.arr elems) => !elems.isEmpty
  | some (Json.obj fields) => !fields.isEmpty

/-- The four sections of the Dashboard page of dhl_logistics_app.py. -/
inductive DashSection where
  | Metrics
  | StatusChart
  | EfficiencyChart
  | RecentShipments
deriving DecidableEq, Repr

/-- The Dashboard page, dhl_logistics_app.py lines 104-183: the metrics row
and all three further sections sit inside the guard if summary:, and the
status chart, efficiency chart and recent shipments table each sit inside a
further guard on their own fetched data.  The function returns the sections
rendered, in page order, given the four fetch results. -/
def dashboard_sections (summary statusCounts efficiency shipments : Option Json) :
    List DashSection :=
  if truthy summary then
    DashSection.Metrics ::
      ((if truthy statusCounts then [DashSection.StatusChart] else []) ++
        (if truthy efficiency then [DashSection.EfficiencyChart] else []) ++
        (if truthy shipments then [DashSection.RecentShipments] else []))
  else []

/-- C9 counterexample: the status chart fetch succeeds with truthy data, yet
when the summary fetch fails (fetch_api_data returns None) no dashboard
section renders at all, the status chart included: the summary failure is not
isolated to the metrics section. -/
theorem C9_summary_aborts_counterexample :
    truthy (some (Json.arr [Json.obj
      [("status", Json.str "Delivered"), ("count", Json.num 3)]])) = true ∧
    dashboard_sections none
      (some (Json.arr [Json.obj
        [("status", Json.str "Delivered"), ("count", Json.num 3)]]))
      (some (Json.arr [Json.num 1])) (some (Json.arr [Json.num 2])) = [] := by
  refine ⟨by decide, by decide⟩

/-- C9 amended: when the summary fetch yields truthy data, the other three
dashboard fetches are isolated from one another: each of the status chart,
the efficiency chart and the recent shipments table renders exactly when its
own fetch yields truthy data; but when the summary fetch fails or yields
falsy data, no dashboard section renders at all. -/
theorem C9_section_isolation (s sc e sh : Option Json) :
    (truthy s = true →
      DashSection.Metrics ∈ dashboard_sections s sc e sh ∧
      (DashSection.StatusChart ∈ dashboard_sections s sc e sh ↔
        truthy sc = true) ∧
      (DashSection.EfficiencyChart ∈ dashboard_sections s sc e sh ↔
        truthy e = true) ∧
      (DashSection.RecentShipments ∈ dashboard_sections s sc e sh ↔
        truthy sh = true)) ∧
    (truthy s = false → dashboard_sections s sc e sh = []) := by
  constructor
  · intro hs
    cases hsc : truthy sc <;> cases he : truthy e <;> cases hsh : truthy sh <;>
      simp [dashboard_sections, hs, hsc, he, hsh]
  · intro hs
    simp [dashboard_sections, hs]

/-- C9 witness: the amended theorem applied to concrete fetch results where
the summary succeeds, the status chart data is truthy and the other two
fetches fail. -/
theorem C9_section_isolation_witness :
    DashSection.StatusChart ∈ dashboard_sections
      (some (Json.obj [("total_shipments", Json.num 10)]))
      (some (Json.arr [Json.num 1])) none none := by
  have h := (C9_section_isolation
      (some (Json.obj [("total_shipments", Json.num 10)]))
      (some (Json.arr [Json.num 1])) none none).1 (by decide)
  exact h.2.1.mpr (by decide)

/-- The sections of the Parcels and Customers pages of dhl_logistics_app.py
that sit behind the truthiness guard on the fetched list. -/
inductive PageSection where
  | DataTable
  | WeightChart
  | DetailsCard
deriving DecidableEq, Repr

/-- The Parcels page guard, dhl_logistics_app.py lines 304-342: the table and
the weight distribution chart render only when the fetched parcels value is
truthy. -/
def parcels_page_sections (parcels : Option Json) : List PageSection :=
  if truthy parcels then [PageSection.DataTable, PageSection.WeightChart]
  else []

/-- The Customers page guard, dhl_logistics_app.py lines 251-298: the table
and the details card render only when the fetched customers value is
truthy. -/
def customers_page_sections (customers : Option Json) : List PageSection :=
  if truthy customers then [PageSection.DataTable, PageSection.DetailsCard]
  else []

/-- C10: a successful 2xx fetch whose JSON body is an empty list comes back
from fetch_api_data as that empty list, which the truthiness guards treat
exactly like the None of a failed fetch: the Parcels and Customers pages
render no section in either case, and the two cases are indistinguishable to
the guard. -/
theorem C10_empty_list_like_failure :
    fetch_api_data (Except.ok ⟨200, Json.arr []⟩) = some (Json.arr []) ∧
    fetch_api_data (Except.error "connection refused") = none ∧
    truthy (some (Json.arr [])) = false ∧
    truthy none = false ∧
    parcels_page_sections (fetch_api_data (Except.ok ⟨200, Json.arr []⟩)) = [] ∧
    parcels_page_sections (fetch_api_data (Except.ok ⟨200, Json.arr []⟩)) =
      parcels_page_sections (fetch_api_data (Except.error "connection refused")) ∧
    customers_page_sections (some (Json.arr [])) = [] ∧
    customers_page_sections (some (Json.arr [])) = customers_page_sections none := by
  refine ⟨rfl, rfl, rfl, rfl, rfl, rfl, rfl, rfl⟩
